import Mathlib

set_option autoImplicit false

/-! Shallow embedding of `src/python_datasource.cpp` from the python-mapnik
plugin: the Boost.Python datasource adapter (`python_datasource`) and the
featureset adapter (`python_featureset`).

Modelling choices:
* machine doubles are modelled as exact rationals (`Rat`);
* Python values visible at the boundary are an explicit inductive `PyVal`;
* the three kinds of C++ exceptions that occur in this file are explicit:
  `boost::python::error_already_set` (a pending interpreter error),
  `mapnik::datasource_exception`, and `boost::bad_optional_access` (thrown
  by `boost::optional::value()` on an empty optional);
* each attribute lookup on the external object, and each call into one of
  its callables, is recorded in an event trace, so that statements about
  "which fields were read" and "how many calls were made" are expressible.
-/

/-- Host-side bounding box `mapnik::box2d<double>` (doubles modelled as
`Rat`), with the four bounds in the order of the C++ data members. -/
structure box2d where
  minx_ : Rat
  miny_ : Rat
  maxx_ : Rat
  maxy_ : Rat
deriving DecidableEq

/-- The host's default-constructed (invalid) box; `envelope()` starts from
it and overwrites every bound before returning. -/
def box2dDefault : box2d := ⟨0, 0, -1, -1⟩

/-- Setter `box2d::set_minx`: plain assignment, no normalization. -/
def box2d.set_minx (b : box2d) (v : Rat) : box2d := ⟨v, b.miny_, b.maxx_, b.maxy_⟩

/-- Setter `box2d::set_miny`: plain assignment, no normalization. -/
def box2d.set_miny (b : box2d) (v : Rat) : box2d := ⟨b.minx_, v, b.maxx_, b.maxy_⟩

/-- Setter `box2d::set_maxx`: plain assignment, no normalization. -/
def box2d.set_maxx (b : box2d) (v : Rat) : box2d := ⟨b.minx_, b.miny_, v, b.maxy_⟩

/-- Setter `box2d::set_maxy`: plain assignment, no normalization. -/
def box2d.set_maxy (b : box2d) (v : Rat) : box2d := ⟨b.minx_, b.miny_, b.maxx_, v⟩

/-- Modelled from the spec: the host toolkit's `box2d::intersects` test
(the host's mapnik library is outside this repository); two boxes
intersect unless one lies strictly to one side of the other. -/
def box2d.intersects (b other : box2d) : Bool :=
  !(decide (other.minx_ > b.maxx_) || decide (other.maxx_ < b.minx_) ||
    decide (other.miny_ > b.maxy_) || decide (other.maxy_ < b.miny_))

/-- Host-side point `mapnik::coord2d` (doubles as `Rat`). -/
structure coord2d where
  x : Rat
  y : Rat
deriving DecidableEq

/-- Host-side `mapnik::query`; only its bounding box is consumed by this
file (via `q.get_bbox()`). -/
structure query where
  bbox : box2d
deriving DecidableEq

/-- Accessor `query::get_bbox`. -/
def query.get_bbox (q : query) : box2d := q.bbox

/-- A host feature record (`mapnik::feature_ptr` payload), abstract here:
only identity and count of the yielded records matter to this file. -/
structure feature where
  fid : Nat
deriving DecidableEq

/-- A pending interpreter error as fetched by `extractException`:
`excStr` is `str(exc)` (the display of the exception class), and `val` is
the joined `traceback.format_exception` text when the error has a value. -/
structure PyError where
  excStr : String
  val : Option String
deriving DecidableEq

/-- The error-to-text translation of `extractException` (lines 46-66):
with no exception value it returns `str(exc)`, otherwise the concatenated
formatted traceback. -/
def extractException (e : PyError) : String :=
  match e.val with
  | none => e.excStr
  | some s => s

/-- Modelled from the spec: the interpreter raises `AttributeError` (with
a formatted traceback) when an attribute lookup finds no such attribute;
this is behavior of the embedded interpreter, outside this repository. -/
def attributeError (key : String) : PyError :=
  ⟨"AttributeError",
   some ("Traceback (most recent call last):\nAttributeError: object has no attribute " ++ key ++ "\n")⟩

/-- Modelled from the spec: the `TypeError` Boost.Python leaves pending
when `extract<long>` cannot convert the Python value to an integer. -/
def extractLongError : PyError :=
  ⟨"TypeError",
   some ("Traceback (most recent call last):\nTypeError: No registered converter was able to produce a C++ long from this Python object\n")⟩

/-- Modelled from the spec: the `TypeError` the interpreter raises when a
non-callable object is called. -/
def notCallableError : PyError :=
  ⟨"TypeError",
   some ("Traceback (most recent call last):\nTypeError: object is not callable\n")⟩

/-- Result of calling one of the external object's callables
(`features` / `features_at_point`): an interpreter-raised error, a null
result, or an iterable of feature-like values.  Per the boundary contract
each yielded element is convertible to a host feature record. -/
inductive FeatResult where
  | raised (e : PyError)
  | retNone
  | retIter (items : List feature)

/-- A Python value as seen across this file's boundary: the interpreter's
null, an integer, a float, a string, an object with named attributes, or
one of the two callables the adapter invokes. -/
inductive PyVal where
  | pynone
  | pyint (n : Int)
  | pyfloat (x : Rat)
  | pystr (s : String)
  | pyobj (attrs : List (String × PyVal))
  | pycallq (f : query → FeatResult)
  | pycallp (f : coord2d → FeatResult)

/-- First-match lookup in an attribute list (the interpreter's attribute
dictionary). -/
def lookupAttr : List (String × PyVal) → String → Option PyVal
  | [], _ => none
  | (k, v) :: rest, key => if k = key then some v else lookupAttr rest key

/-- One kind per C++ exception alive in this translation unit. -/
inductive CppExc where
  | pyErr (e : PyError)
  | dsExc (msg : String)
  | badOptAccess

/-- Interpreter work performed by the adapter: attribute lookups on the
external datasource object, attribute lookups on its envelope value, and
calls into its two callables (recording the forwarded argument). -/
inductive Event where
  | dsAttr (key : String)
  | envAttr (key : String)
  | callFeatures (q : query)
  | callFeaturesAtPoint (pt : coord2d)
deriving DecidableEq

/-- Outcome of one adapter operation as the host sees it: a value, a
`mapnik::datasource_exception` (DatasourceError) with its message, or a
native non-datasource exception escaping the adapter. -/
inductive DSOutcome (α : Type) where
  | ok (a : α)
  | dsErr (msg : String)
  | native (desc : String)
deriving DecidableEq

/-- Attribute access `obj.attr(key)` in Boost.Python: lookup in the
attribute list, raising `AttributeError` (as `error_already_set`) when the
attribute is absent. -/
def pyGetattr (attrs : List (String × PyVal)) (key : String) : Except CppExc PyVal :=
  match lookupAttr attrs key with
  | some v => Except.ok v
  | none => Except.error (CppExc.pyErr (attributeError key))

/-- The `v.is_none()` test. -/
def PyVal.isNone : PyVal → Bool
  | .pynone => true
  | _ => false

/-- Attribute access on an arbitrary Python value (used for the envelope's
sub-attributes): only objects carry attributes, anything else raises
`AttributeError`. -/
def PyVal.attr : PyVal → String → Except CppExc PyVal
  | .pyobj attrs, key => pyGetattr attrs key
  | _, _key => Except.error (CppExc.pyErr (attributeError _key))

/-- `boost::python::extract<long>`: succeeds exactly on Python integers. -/
def extractLong : PyVal → Option Int
  | .pyint n => some n
  | _ => none

/-- `boost::python::extract<double>`: succeeds on Python floats and
integers. -/
def extractDouble : PyVal → Option Rat
  | .pyfloat x => some x
  | .pyint n => some (n : Rat)
  | _ => none

/-- `boost::optional::value()`: returns the held value, and throws
`boost::bad_optional_access` when the optional is empty. -/
def optValue (o : Option PyVal) : Except CppExc PyVal :=
  match o with
  | some v => Except.ok v
  | none => Except.error CppExc.badOptAccess

/-- Calling the external `features` callable with the query value. -/
def PyVal.callQuery : PyVal → query → FeatResult
  | .pycallq f, q => f q
  | _, _ => FeatResult.raised notCallableError

/-- Calling the external `features_at_point` callable with the point. -/
def PyVal.callPoint : PyVal → coord2d → FeatResult
  | .pycallp f, p => f p
  | _, _ => FeatResult.raised notCallableError

/-- The per-operation `catch (boost::python::error_already_set)` boundary:
a pending interpreter error is re-thrown as `datasource_exception` carrying
`extractException()`'s text; a `datasource_exception` thrown inside the
`try` block is not caught and surfaces as-is; any other native exception
(here only `bad_optional_access`) escapes the adapter untranslated. -/
def translateExc {α : Type} : Except CppExc α → DSOutcome α
  | Except.ok a => DSOutcome.ok a
  | Except.error (CppExc.pyErr e) => DSOutcome.dsErr (extractException e)
  | Except.error (CppExc.dsExc m) => DSOutcome.dsErr m
  | Except.error CppExc.badOptAccess => DSOutcome.native ("boost::bad_optional_access")

/-- The datasource adapter: holds the external object's attribute
dictionary (the `datasource_` member, an External Object Handle). -/
structure python_datasource where
  datasource_ : List (String × PyVal)

/-- `python_datasource::get_param` (lines 114-123): one attribute lookup
on the external object; a present-but-null value becomes `boost::none`
(`Option.none` here), any other present value is returned; an absent
attribute raises `AttributeError` out of this function. -/
def python_datasource.get_param (ds : python_datasource) (key : String) :
    Except CppExc (Option PyVal) × List Event :=
  match pyGetattr ds.datasource_ key with
  | Except.error e => (Except.error e, [Event.dsAttr key])
  | Except.ok v =>
    if v.isNone then (Except.ok none, [Event.dsAttr key])
    else (Except.ok (some v), [Event.dsAttr key])

/-- `python_datasource::has_param` (lines 125-128): `true` iff `get_param`
did not give `boost::none`; an error from `get_param` propagates. -/
def python_datasource.has_param (ds : python_datasource) (key : String) :
    Except CppExc Bool × List Event :=
  match ds.get_param key with
  | (Except.error e, tr) => (Except.error e, tr)
  | (Except.ok o, tr) => (Except.ok o.isSome, tr)

/-- `python_datasource::type` (lines 99-112): read the `data_type`
parameter, take `.value()` of the optional, convert with
`extract<long>`, and translate any pending interpreter error at the
`catch` boundary. -/
def python_datasource.type (ds : python_datasource) : DSOutcome Int × List Event :=
  match ds.get_param ("data_type") with
  | (Except.error e, tr) => (translateExc (α := Int) (Except.error e), tr)
  | (Except.ok o, tr) =>
    match optValue o with
    | Except.error e => (translateExc (α := Int) (Except.error e), tr)
    | Except.ok v =>
      match extractLong v with
      | some n => (DSOutcome.ok n, tr)
      | none => (translateExc (α := Int) (Except.error (CppExc.pyErr extractLongError)), tr)

/-- The four sub-attribute reads of `envelope()` (lines 149-164): for each
of minx, miny, maxx, maxy in that order, read the attribute, check
`extract<double>`, and fail fast with a `datasource_exception` naming the
field when the check fails; on success the box is built with the four
setters from the default box. -/
def envelopeFields (v : PyVal) : Except CppExc box2d × List Event :=
  match v.attr ("minx") with
  | Except.error e => (Except.error e, [Event.envAttr ("minx")])
  | Except.ok a =>
    match extractDouble a with
    | none => (Except.error (CppExc.dsExc ("Python: could not convert envelope.minx")),
               [Event.envAttr ("minx")])
    | some x =>
      match v.attr ("miny") with
      | Except.error e => (Except.error e, [Event.envAttr ("minx"), Event.envAttr ("miny")])
      | Except.ok b =>
        match extractDouble b with
        | none => (Except.error (CppExc.dsExc ("Python: could not convert envelope.miny")),
                   [Event.envAttr ("minx"), Event.envAttr ("miny")])
        | some y =>
          match v.attr ("maxx") with
          | Except.error e =>
            (Except.error e,
             [Event.envAttr ("minx"), Event.envAttr ("miny"), Event.envAttr ("maxx")])
          | Except.ok c =>
            match extractDouble c with
            | none => (Except.error (CppExc.dsExc ("Python: could not convert envelope.maxx")),
                       [Event.envAttr ("minx"), Event.envAttr ("miny"), Event.envAttr ("maxx")])
            | some xx =>
              match v.attr ("maxy") with
              | Except.error e =>
                (Except.error e,
                 [Event.envAttr ("minx"), Event.envAttr ("miny"), Event.envAttr ("maxx"),
                  Event.envAttr ("maxy")])
              | Except.ok d =>
                match extractDouble d with
                | none =>
                  (Except.error (CppExc.dsExc ("Python: could not convert envelope.maxy")),
                   [Event.envAttr ("minx"), Event.envAttr ("miny"), Event.envAttr ("maxx"),
                    Event.envAttr ("maxy")])
                | some yy =>
                  (Except.ok ((((box2dDefault.set_minx x).set_miny y).set_maxx xx).set_maxy yy),
                   [Event.envAttr ("minx"), Event.envAttr ("miny"), Event.envAttr ("maxx"),
                    Event.envAttr ("maxy")])

/-- `python_datasource::envelope` (lines 130-173): guard with
`has_param("envelope")`, re-fetch the parameter with `get_param` and take
`.value()`, test `is_none()`, then read the four sub-attributes; every
pending interpreter error is translated at the `catch` boundary. -/
def python_datasource.envelope (ds : python_datasource) : DSOutcome box2d × List Event :=
  match ds.has_param ("envelope") with
  | (Except.error e, tr) => (translateExc (α := box2d) (Except.error e), tr)
  | (Except.ok false, tr) =>
    (translateExc (α := box2d)
      (Except.error (CppExc.dsExc ("Python: could not access envelope property"))), tr)
  | (Except.ok true, tr) =>
    match ds.get_param ("envelope") with
    | (Except.error e, tr2) => (translateExc (α := box2d) (Except.error e), tr ++ tr2)
    | (Except.ok o, tr2) =>
      match optValue o with
      | Except.error e => (translateExc (α := box2d) (Except.error e), tr ++ tr2)
      | Except.ok v =>
        if v.isNone then
          (translateExc (α := box2d)
            (Except.error (CppExc.dsExc ("Python: envelope property is None"))), tr ++ tr2)
        else
          match envelopeFields v with
          | (Except.error e, tr3) => (translateExc (α := box2d) (Except.error e), tr ++ tr2 ++ tr3)
          | (Except.ok box, tr3) => (DSOutcome.ok box, tr ++ tr2 ++ tr3)

/-- `python_datasource::get_geometry_type` (lines 175-201): absent
parameter — per the code's attribute-lookup behavior — raises out of
`has_param` and is translated at the `catch` boundary; a present-but-null
parameter gives no hint; otherwise convert with `extract<long>`. -/
def python_datasource.get_geometry_type (ds : python_datasource) :
    DSOutcome (Option Int) × List Event :=
  match ds.has_param ("geometry_type") with
  | (Except.error e, tr) => (translateExc (α := Option Int) (Except.error e), tr)
  | (Except.ok false, tr) => (DSOutcome.ok none, tr)
  | (Except.ok true, tr) =>
    match ds.get_param ("geometry_type") with
    | (Except.error e, tr2) => (translateExc (α := Option Int) (Except.error e), tr ++ tr2)
    | (Except.ok o, tr2) =>
      match optValue o with
      | Except.error e => (translateExc (α := Option Int) (Except.error e), tr ++ tr2)
      | Except.ok v =>
        if v.isNone then (DSOutcome.ok none, tr ++ tr2)
        else
          match extractLong v with
          | some n => (DSOutcome.ok (some n), tr ++ tr2)
          | none =>
            (translateExc (α := Option Int) (Except.error (CppExc.pyErr extractLongError)),
             tr ++ tr2)

/-- The featureset adapter `python_featureset`: its state is the host-side
cursor pair `begin_`/`end_` over the interpreter-side iterator, modelled
as the list of not-yet-consumed feature records (each yielded element is
convertible per the boundary contract). -/
structure python_featureset where
  begin_ : List feature
deriving DecidableEq

/-- `python_featureset::next` (lines 261-271): when the cursor is at end,
return the null `feature_ptr` without acquiring the interpreter lock
(third component `false`); otherwise acquire it (`true`), yield the
current record and advance. -/
def python_featureset.next : python_featureset → Option feature × python_featureset × Bool
  | ⟨[]⟩ => (none, ⟨[]⟩, false)
  | ⟨f :: rest⟩ => (some f, ⟨rest⟩, true)

/-- Iterate `next()` a given number of times, collecting each returned
record together with whether that call touched the interpreter. -/
def python_featureset.runNext : python_featureset → Nat → List (Option feature × Bool) × python_featureset
  | fs, 0 => ([], fs)
  | fs, Nat.succ k =>
    match fs.next with
    | (r, fs1, g) =>
      match fs1.runNext k with
      | (rs, fs2) => ((r, g) :: rs, fs2)

/-- A `featureset_ptr`: null (empty featureset) or a featureset adapter. -/
def featureset_ptr : Type := Option python_featureset

/-- `python_datasource::features` (lines 203-226): compute `envelope()`
first; a `datasource_exception` from it escapes this function's `catch`
(which only catches pending interpreter errors) unchanged.  On an
intersecting query, fetch the `features` parameter, take `.value()`, call
it with the query, and wrap a non-null result; on a non-intersecting
query return the null featureset with no further interpreter work. -/
def python_datasource.features (ds : python_datasource) (q : query) :
    DSOutcome featureset_ptr × List Event :=
  match ds.envelope with
  | (DSOutcome.ok box, envTr) =>
    if box.intersects q.get_bbox then
      match ds.get_param ("features") with
      | (Except.error e, tr) => (translateExc (α := featureset_ptr) (Except.error e), envTr ++ tr)
      | (Except.ok o, tr) =>
        match optValue o with
        | Except.error e => (translateExc (α := featureset_ptr) (Except.error e), envTr ++ tr)
        | Except.ok v =>
          match v.callQuery q with
          | FeatResult.raised e =>
            (translateExc (α := featureset_ptr) (Except.error (CppExc.pyErr e)),
             envTr ++ tr ++ [Event.callFeatures q])
          | FeatResult.retNone =>
            (DSOutcome.ok (none : featureset_ptr), envTr ++ tr ++ [Event.callFeatures q])
          | FeatResult.retIter items =>
            (DSOutcome.ok (some ⟨items⟩ : featureset_ptr), envTr ++ tr ++ [Event.callFeatures q])
    else (DSOutcome.ok (none : featureset_ptr), envTr)
  | (DSOutcome.dsErr m, envTr) => (DSOutcome.dsErr m, envTr)
  | (DSOutcome.native d, envTr) => (DSOutcome.native d, envTr)

/-- `python_datasource::features_at_point` (lines 228-247): fetch the
`features_at_point` parameter, take `.value()`, call it with the point
only — the tolerance argument `tol` is accepted but never forwarded — and
wrap a non-null result. -/
def python_datasource.features_at_point (ds : python_datasource) (pt : coord2d) (tol : Rat) :
    DSOutcome featureset_ptr × List Event :=
  match ds.get_param ("features_at_point") with
  | (Except.error e, tr) => (translateExc (α := featureset_ptr) (Except.error e), tr)
  | (Except.ok o, tr) =>
    match optValue o with
    | Except.error e => (translateExc (α := featureset_ptr) (Except.error e), tr)
    | Except.ok v =>
      match v.callPoint pt with
      | FeatResult.raised e =>
        (translateExc (α := featureset_ptr) (Except.error (CppExc.pyErr e)),
         tr ++ [Event.callFeaturesAtPoint pt])
      | FeatResult.retNone =>
        (DSOutcome.ok (none : featureset_ptr), tr ++ [Event.callFeaturesAtPoint pt])
      | FeatResult.retIter items =>
        (DSOutcome.ok (some ⟨items⟩ : featureset_ptr), tr ++ [Event.callFeaturesAtPoint pt])

/-- An external datasource object with no attributes at all. -/
def dsEmpty : python_datasource := ⟨[]⟩

/-- An external datasource object whose `data_type` attribute is the
interpreter's null. -/
def dsNullDataType : python_datasource := ⟨[("data_type", PyVal.pynone)]⟩

/-- An envelope-like external value with bounds (0, 0, 1, 1). -/
def pyEnvSmall : PyVal :=
  PyVal.pyobj
    [("minx", PyVal.pyfloat 0), ("miny", PyVal.pyfloat 0),
     ("maxx", PyVal.pyfloat 1), ("maxy", PyVal.pyfloat 1)]

/-- An external datasource object whose envelope is (0, 0, 1, 1) and
whose `features` callable would return an iterable of one record. -/
def dsSmallWorld : python_datasource :=
  ⟨[("envelope", pyEnvSmall),
    ("features", PyVal.pycallq (fun _ => FeatResult.retIter [⟨0⟩]))]⟩

/-- A query whose bounding box (10, 10, 11, 11) lies entirely outside the
(0, 0, 1, 1) envelope. -/
def qFar : query := ⟨⟨10, 10, 11, 11⟩⟩

/-- An external datasource object whose envelope has a non-numeric
`minx` and numeric remaining bounds. -/
def dsBadMinx : python_datasource :=
  ⟨[("envelope",
     PyVal.pyobj
       [("minx", PyVal.pystr ("oops")), ("miny", PyVal.pyfloat 0),
        ("maxx", PyVal.pyfloat 1), ("maxy", PyVal.pyfloat 1)])]⟩

/-- The spec's concrete envelope scenario:
bounds {minx: -10.0, miny: -5.0, maxx: 10.0, maxy: 5.0}. -/
def dsSpecEnv : python_datasource :=
  ⟨[("envelope",
     PyVal.pyobj
       [("minx", PyVal.pyfloat (-10)), ("miny", PyVal.pyfloat (-5)),
        ("maxx", PyVal.pyfloat 10), ("maxy", PyVal.pyfloat 5)])]⟩

/-- An external datasource object whose `envelope` attribute is present
but null. -/
def dsNullEnv : python_datasource := ⟨[("envelope", PyVal.pynone)]⟩

/-- An external datasource object whose `features_at_point` callable
always returns the interpreter's null. -/
def dsAtPointNone : python_datasource :=
  ⟨[("features_at_point", PyVal.pycallp (fun _ => FeatResult.retNone))]⟩

/-- A concrete point. -/
def ptExample : coord2d := ⟨1, 2⟩

/-- C1 (code bug): on an external object with no `geometry_type`
attribute, `get_geometry_type()` does not return "no hint" as its own
comment (line 182) and the spec state: the attribute lookup inside
`has_param` raises `AttributeError`, so the operation fails with a
DatasourceError carrying the `AttributeError` traceback text. -/
theorem c1_geometry_type_absent_errs :
    dsEmpty.get_geometry_type
      = (DSOutcome.dsErr (extractException (attributeError ("geometry_type"))),
         [Event.dsAttr ("geometry_type")])
    ∧ (dsEmpty.get_geometry_type).1 ≠ DSOutcome.ok none := by
  exact ⟨rfl, by decide⟩

/-- Exhausted cursors stay exhausted: every further `next()` call yields
the terminal null record and never touches the interpreter. -/
theorem runNext_nil_eq (k : Nat) :
    python_featureset.runNext ⟨[]⟩ k = (List.replicate k (none, false), ⟨[]⟩) := by
  induction k with
  | zero => rfl
  | succ n ih => simp [python_featureset.runNext, python_featureset.next, ih, List.replicate_succ]

/-- C8: a featureset adapter over an iterable of N convertible
feature-like values yields exactly those N records (each under the
interpreter lock) on the first N `next()` calls, and on every subsequent
call yields the terminal null record without touching the interpreter;
the end state is absorbing. -/
theorem c8_featureset_yields_then_terminal (fs : List feature) (k : Nat) :
    python_featureset.runNext ⟨fs⟩ (fs.length + k)
      = (fs.map (fun f => (some f, true)) ++ List.replicate k (none, false), ⟨[]⟩) := by
  induction fs with
  | nil => simpa using runNext_nil_eq k
  | cons f t ih =>
    have h : t.length + 1 + k = (t.length + k) + 1 := by omega
    rw [List.length_cons, h]
    simp [python_featureset.runNext, python_featureset.next, ih]

/-- Attribute access can only fail with the `AttributeError` for the
requested key. -/
theorem attr_error_form (v : PyVal) (k : String) (e : CppExc)
    (h : PyVal.attr v k = Except.error e) : e = CppExc.pyErr (attributeError k) := by
  cases v <;> simp only [PyVal.attr, pyGetattr] at h
  case pyobj attrs =>
    cases hl : lookupAttr attrs k with
    | none =>
      simp only [hl] at h
      injection h with h1
      exact h1.symm
    | some w =>
      simp only [hl] at h
      exact Except.noConfusion h
  all_goals (injection h with h1; exact h1.symm)

/-- The null test characterizes the null value. -/
theorem isNone_eq_true_iff (v : PyVal) : v.isNone = true ↔ v = PyVal.pynone := by
  cases v <;> simp [PyVal.isNone]

/-- When the envelope value is present and non-null, `envelope()` returns
exactly what the four sub-attribute reads produce (success case). -/
theorem envelope_fields_ok (ds : python_datasource) (v : PyVal) (b : box2d) (tr3 : List Event)
    (hl : lookupAttr ds.datasource_ ("envelope") = some v) (hn : v.isNone = false)
    (hf : envelopeFields v = (Except.ok b, tr3)) :
    ds.envelope = (DSOutcome.ok b,
      Event.dsAttr ("envelope") :: Event.dsAttr ("envelope") :: tr3) := by
  simp [python_datasource.envelope, python_datasource.has_param, python_datasource.get_param,
        pyGetattr, hl, hn, optValue, hf]

/-- When the envelope value is present and non-null, `envelope()` fails
exactly as the four sub-attribute reads fail (error case). -/
theorem envelope_fields_error (ds : python_datasource) (v : PyVal) (e : CppExc) (tr3 : List Event)
    (hl : lookupAttr ds.datasource_ ("envelope") = some v) (hn : v.isNone = false)
    (hf : envelopeFields v = (Except.error e, tr3)) :
    ds.envelope = (translateExc (α := box2d) (Except.error e),
      Event.dsAttr ("envelope") :: Event.dsAttr ("envelope") :: tr3) := by
  simp [python_datasource.envelope, python_datasource.has_param, python_datasource.get_param,
        pyGetattr, hl, hn, optValue, hf]

/-- Every error of the four sub-attribute reads translates to a
DatasourceError whose message differs from the never-thrown
"Python: envelope property is None" text. -/
theorem envelopeFields_error_translate (v : PyVal) (e : CppExc) (tr3 : List Event)
    (hf : envelopeFields v = (Except.error e, tr3)) :
    translateExc (α := box2d) (Except.error e)
      ≠ DSOutcome.dsErr ("Python: envelope property is None") := by
  cases hmx : PyVal.attr v ("minx") with
  | error e1 =>
    have h1 := attr_error_form v ("minx") e1 hmx
    simp only [envelopeFields, hmx] at hf
    injection hf with ha hb
    injection ha with hc
    subst hc
    rw [h1]
    decide
  | ok a1 =>
    cases hex : extractDouble a1 with
    | none =>
      simp only [envelopeFields, hmx, hex] at hf
      injection hf with ha hb
      injection ha with hc
      subst hc
      decide
    | some x =>
      cases hmy : PyVal.attr v ("miny") with
      | error e1 =>
        have h1 := attr_error_form v ("miny") e1 hmy
        simp only [envelopeFields, hmx, hex, hmy] at hf
        injection hf with ha hb
        injection ha with hc
        subst hc
        rw [h1]
        decide
      | ok b1 =>
        cases hey : extractDouble b1 with
        | none =>
          simp only [envelopeFields, hmx, hex, hmy, hey] at hf
          injection hf with ha hb
          injection ha with hc
          subst hc
          decide
        | some y =>
          cases hmX : PyVal.attr v ("maxx") with
          | error e1 =>
            have h1 := attr_error_form v ("maxx") e1 hmX
            simp only [envelopeFields, hmx, hex, hmy, hey, hmX] at hf
            injection hf with ha hb
            injection ha with hc
            subst hc
            rw [h1]
            decide
          | ok c1 =>
            cases heX : extractDouble c1 with
            | none =>
              simp only [envelopeFields, hmx, hex, hmy, hey, hmX, heX] at hf
              injection hf with ha hb
              injection ha with hc
              subst hc
              decide
            | some xx =>
              cases hmY : PyVal.attr v ("maxy") with
              | error e1 =>
                have h1 := attr_error_form v ("maxy") e1 hmY
                simp only [envelopeFields, hmx, hex, hmy, hey, hmX, heX, hmY] at hf
                injection hf with ha hb
                injection ha with hc
                subst hc
                rw [h1]
                decide
              | ok d1 =>
                cases heY : extractDouble d1 with
                | none =>
                  simp only [envelopeFields, hmx, hex, hmy, hey, hmX, heX, hmY, heY] at hf
                  injection hf with ha hb
                  injection ha with hc
                  subst hc
                  decide
                | some yy =>
                  simp only [envelopeFields, hmx, hex, hmy, hey, hmX, heX, hmY, heY] at hf
                  injection hf with ha hb
                  exact Except.noConfusion ha

/-- The four sub-attribute reads only record envelope-attribute events:
no call into the external `features` callable occurs there. -/
theorem envelopeFields_trace_attrs (v : PyVal) (r : Except CppExc box2d) (tr3 : List Event)
    (hf : envelopeFields v = (r, tr3)) (q : query) :
    Event.callFeatures q ∉ tr3 := by
  unfold envelopeFields at hf
  repeat' split at hf
  all_goals (injection hf with h1 h2; subst h2; simp)

/-- The whole of `envelope()` performs attribute reads only: it never
calls the external `features` callable. -/
theorem envelope_trace_no_calls (ds : python_datasource) (q : query) :
    Event.callFeatures q ∉ (ds.envelope).2 := by
  cases hl : lookupAttr ds.datasource_ ("envelope") with
  | none =>
    simp [python_datasource.envelope, python_datasource.has_param, python_datasource.get_param,
          pyGetattr, hl]
  | some v =>
    cases hn : v.isNone with
    | true =>
      have hv := (isNone_eq_true_iff v).1 hn
      subst hv
      simp [python_datasource.envelope, python_datasource.has_param, python_datasource.get_param,
            pyGetattr, hl, PyVal.isNone, optValue, translateExc]
    | false =>
      rcases hf : envelopeFields v with ⟨r, tr3⟩
      have htr := envelopeFields_trace_attrs v r tr3 hf q
      cases r with
      | ok b =>
        rw [envelope_fields_ok ds v b tr3 hl hn hf]
        simp [htr]
      | error e =>
        rw [envelope_fields_error ds v e tr3 hl hn hf]
        simp [htr]

/-- Sub-attribute reads with a present but non-convertible `minx`. -/
theorem envelopeFields_bad_minx (attrs : List (String × PyVal)) (va : PyVal)
    (h1 : lookupAttr attrs ("minx") = some va) (h1x : extractDouble va = none) :
    envelopeFields (PyVal.pyobj attrs)
      = (Except.error (CppExc.dsExc ("Python: could not convert envelope.minx")),
         [Event.envAttr ("minx")]) := by
  simp [envelopeFields, PyVal.attr, pyGetattr, h1, h1x]

/-- Sub-attribute reads with a convertible `minx` and a present but
non-convertible `miny`. -/
theorem envelopeFields_bad_miny (attrs : List (String × PyVal)) (va vb : PyVal) (a : Rat)
    (h1 : lookupAttr attrs ("minx") = some va) (h1x : extractDouble va = some a)
    (h2 : lookupAttr attrs ("miny") = some vb) (h2x : extractDouble vb = none) :
    envelopeFields (PyVal.pyobj attrs)
      = (Except.error (CppExc.dsExc ("Python: could not convert envelope.miny")),
         [Event.envAttr ("minx"), Event.envAttr ("miny")]) := by
  simp [envelopeFields, PyVal.attr, pyGetattr, h1, h1x, h2, h2x]

/-- Sub-attribute reads with convertible `minx`, `miny` and a present but
non-convertible `maxx`. -/
theorem envelopeFields_bad_maxx (attrs : List (String × PyVal)) (va vb vc : PyVal) (a b : Rat)
    (h1 : lookupAttr attrs ("minx") = some va) (h1x : extractDouble va = some a)
    (h2 : lookupAttr attrs ("miny") = some vb) (h2x : extractDouble vb = some b)
    (h3 : lookupAttr attrs ("maxx") = some vc) (h3x : extractDouble vc = none) :
    envelopeFields (PyVal.pyobj attrs)
      = (Except.error (CppExc.dsExc ("Python: could not convert envelope.maxx")),
         [Event.envAttr ("minx"), Event.envAttr ("miny"), Event.envAttr ("maxx")]) := by
  simp [envelopeFields, PyVal.attr, pyGetattr, h1, h1x, h2, h2x, h3, h3x]

/-- Sub-attribute reads with convertible `minx`, `miny`, `maxx` and a
present but non-convertible `maxy`. -/
theorem envelopeFields_bad_maxy (attrs : List (String × PyVal)) (va vb vc vd : PyVal) (a b c : Rat)
    (h1 : lookupAttr attrs ("minx") = some va) (h1x : extractDouble va = some a)
    (h2 : lookupAttr attrs ("miny") = some vb) (h2x : extractDouble vb = some b)
    (h3 : lookupAttr attrs ("maxx") = some vc) (h3x : extractDouble vc = some c)
    (h4 : lookupAttr attrs ("maxy") = some vd) (h4x : extractDouble vd = none) :
    envelopeFields (PyVal.pyobj attrs)
      = (Except.error (CppExc.dsExc ("Python: could not convert envelope.maxy")),
         [Event.envAttr ("minx"), Event.envAttr ("miny"), Event.envAttr ("maxx"),
          Event.envAttr ("maxy")]) := by
  simp [envelopeFields, PyVal.attr, pyGetattr, h1, h1x, h2, h2x, h3, h3x, h4, h4x]

/-- Sub-attribute reads with all four bounds present and convertible:
the box holds exactly the four source values in order. -/
theorem envelopeFields_all_good (attrs : List (String × PyVal)) (va vb vc vd : PyVal)
    (a b c d : Rat)
    (h1 : lookupAttr attrs ("minx") = some va) (h1x : extractDouble va = some a)
    (h2 : lookupAttr attrs ("miny") = some vb) (h2x : extractDouble vb = some b)
    (h3 : lookupAttr attrs ("maxx") = some vc) (h3x : extractDouble vc = some c)
    (h4 : lookupAttr attrs ("maxy") = some vd) (h4x : extractDouble vd = some d) :
    envelopeFields (PyVal.pyobj attrs)
      = (Except.ok ⟨a, b, c, d⟩,
         [Event.envAttr ("minx"), Event.envAttr ("miny"), Event.envAttr ("maxx"),
          Event.envAttr ("maxy")]) := by
  simp [envelopeFields, PyVal.attr, pyGetattr, h1, h1x, h2, h2x, h3, h3x, h4, h4x,
        box2dDefault, box2d.set_minx, box2d.set_miny, box2d.set_maxx, box2d.set_maxy]

/-- C9: `get_param(key)` yields `boost::none` exactly when the attribute
exists and is the interpreter's null; an absent attribute makes the
lookup raise, and the `AttributeError` propagates out of
`get_param`/`has_param`.  Consequently the `envelope()` branch throwing
"Python: envelope property is None" is unreachable: a present-but-null
envelope triggers "Python: could not access envelope property", and a
fully absent envelope a DatasourceError with the AttributeError
traceback text. -/
theorem c9_get_param_none_semantics (ds : python_datasource) (key : String) :
    ((ds.get_param key).1 = Except.ok none ↔ lookupAttr ds.datasource_ key = some PyVal.pynone)
    ∧ (lookupAttr ds.datasource_ key = none →
        ds.get_param key = (Except.error (CppExc.pyErr (attributeError key)), [Event.dsAttr key])
        ∧ ds.has_param key = (Except.error (CppExc.pyErr (attributeError key)), [Event.dsAttr key]))
    ∧ ((ds.envelope).1 ≠ DSOutcome.dsErr ("Python: envelope property is None"))
    ∧ (lookupAttr ds.datasource_ ("envelope") = some PyVal.pynone →
        (ds.envelope).1 = DSOutcome.dsErr ("Python: could not access envelope property"))
    ∧ (lookupAttr ds.datasource_ ("envelope") = none →
        (ds.envelope).1 = DSOutcome.dsErr (extractException (attributeError ("envelope")))) := by
  refine ⟨?_, ?_, ?_, ?_, ?_⟩
  · cases hl : lookupAttr ds.datasource_ key with
    | none => simp [python_datasource.get_param, pyGetattr, hl]
    | some v => cases v <;> simp [python_datasource.get_param, pyGetattr, hl, PyVal.isNone]
  · intro h
    constructor <;>
      simp [python_datasource.get_param, python_datasource.has_param, pyGetattr, h]
  · cases hl : lookupAttr ds.datasource_ ("envelope") with
    | none =>
      have he : ds.envelope
          = (DSOutcome.dsErr (extractException (attributeError ("envelope"))),
             [Event.dsAttr ("envelope")]) := by
        simp [python_datasource.envelope, python_datasource.has_param,
              python_datasource.get_param, pyGetattr, hl, translateExc]
      rw [he]
      decide
    | some v =>
      cases hn : v.isNone with
      | true =>
        have hv := (isNone_eq_true_iff v).1 hn
        subst hv
        have he : ds.envelope
            = (DSOutcome.dsErr ("Python: could not access envelope property"),
               [Event.dsAttr ("envelope")]) := by
          simp [python_datasource.envelope, python_datasource.has_param,
                python_datasource.get_param, pyGetattr, hl, PyVal.isNone, translateExc]
        rw [he]
        decide
      | false =>
        rcases hf : envelopeFields v with ⟨r, tr3⟩
        cases r with
        | ok b =>
          rw [envelope_fields_ok ds v b tr3 hl hn hf]
          simp
        | error e =>
          rw [envelope_fields_error ds v e tr3 hl hn hf]
          exact envelopeFields_error_translate v e tr3 hf
  · intro h
    simp [python_datasource.envelope, python_datasource.has_param,
          python_datasource.get_param, pyGetattr, h, PyVal.isNone, translateExc]
  · intro h
    simp [python_datasource.envelope, python_datasource.has_param,
          python_datasource.get_param, pyGetattr, h, translateExc]

/-- Witness for C9 at a concrete datasource whose `envelope` attribute is
present but null. -/
theorem c9_get_param_none_semantics_witness :
    ((dsNullEnv.get_param ("envelope")).1 = Except.ok none
      ↔ lookupAttr dsNullEnv.datasource_ ("envelope") = some PyVal.pynone)
    ∧ ((dsNullEnv.envelope).1 ≠ DSOutcome.dsErr ("Python: envelope property is None"))
    ∧ (dsNullEnv.envelope).1 = DSOutcome.dsErr ("Python: could not access envelope property") :=
  ⟨(c9_get_param_none_semantics dsNullEnv ("envelope")).1,
   (c9_get_param_none_semantics dsNullEnv ("envelope")).2.2.1,
   (c9_get_param_none_semantics dsNullEnv ("envelope")).2.2.2.1 rfl⟩

/-- C3 counterexample: with `data_type` present but null, `get_param`
yields `boost::none` and the unguarded `.value()` throws
`boost::bad_optional_access`, a native non-DatasourceError exception that
escapes `type()`'s `catch (error_already_set)` — refuting the claim that
every failure of `type()` surfaces as a DatasourceError. -/
theorem c3_null_data_type_native_escape :
    dsNullDataType.type
      = (DSOutcome.native ("boost::bad_optional_access"), [Event.dsAttr ("data_type")]) := rfl

/-- C3 (amended): `type()` reads `data_type` and converts it with
`extract<long>`; an absent attribute or a present non-null
non-convertible value fails with a DatasourceError carrying the
interpreter's formatted error text (non-empty in the absent case), and a
present integer succeeds — but a present-but-null `data_type` escapes as
the native `bad_optional_access` exception instead. -/
theorem c3_type_error_translation (ds : python_datasource) (n : Int) (v : PyVal) :
    (lookupAttr ds.datasource_ ("data_type") = none →
        ds.type = (DSOutcome.dsErr (extractException (attributeError ("data_type"))),
                   [Event.dsAttr ("data_type")])
        ∧ extractException (attributeError ("data_type")) ≠ "")
    ∧ (lookupAttr ds.datasource_ ("data_type") = some (PyVal.pyint n) →
        ds.type = (DSOutcome.ok n, [Event.dsAttr ("data_type")]))
    ∧ (lookupAttr ds.datasource_ ("data_type") = some v → v.isNone = false →
        extractLong v = none →
        ds.type = (DSOutcome.dsErr (extractException extractLongError),
                   [Event.dsAttr ("data_type")]))
    ∧ (lookupAttr ds.datasource_ ("data_type") = some PyVal.pynone →
        ds.type = (DSOutcome.native ("boost::bad_optional_access"),
                   [Event.dsAttr ("data_type")])) := by
  refine ⟨?_, ?_, ?_, ?_⟩
  · intro h
    refine ⟨?_, by decide⟩
    simp [python_datasource.type, python_datasource.get_param, pyGetattr, h, translateExc]
  · intro h
    simp [python_datasource.type, python_datasource.get_param, pyGetattr, h, PyVal.isNone,
          optValue, extractLong]
  · intro h hn hx
    simp [python_datasource.type, python_datasource.get_param, pyGetattr, h, hn,
          optValue, hx, translateExc]
  · intro h
    simp [python_datasource.type, python_datasource.get_param, pyGetattr, h, PyVal.isNone,
          optValue, translateExc]

/-- Witness for the amended C3: an external object with no `data_type`
attribute fails with a DatasourceError whose message is non-empty. -/
theorem c3_type_error_translation_witness :
    dsEmpty.type = (DSOutcome.dsErr (extractException (attributeError ("data_type"))),
                    [Event.dsAttr ("data_type")])
    ∧ extractException (attributeError ("data_type")) ≠ "" :=
  (c3_type_error_translation dsEmpty 0 PyVal.pynone).1 rfl

/-- C4: `envelope()` validates minx, miny, maxx, maxy in that fixed
order, fails with a DatasourceError naming the first non-convertible
field, and never reads any later field (witnessed by the exact event
trace). -/
theorem c4_envelope_fail_fast (ds : python_datasource) (attrs : List (String × PyVal))
    (va vb vc vd : PyVal) (a b c : Rat)
    (hl : lookupAttr ds.datasource_ ("envelope") = some (PyVal.pyobj attrs)) :
    (lookupAttr attrs ("minx") = some va → extractDouble va = none →
        ds.envelope = (DSOutcome.dsErr ("Python: could not convert envelope.minx"),
          [Event.dsAttr ("envelope"), Event.dsAttr ("envelope"), Event.envAttr ("minx")])
        ∧ Event.envAttr ("miny") ∉ (ds.envelope).2
        ∧ Event.envAttr ("maxx") ∉ (ds.envelope).2
        ∧ Event.envAttr ("maxy") ∉ (ds.envelope).2)
    ∧ (lookupAttr attrs ("minx") = some va → extractDouble va = some a →
        lookupAttr attrs ("miny") = some vb → extractDouble vb = none →
        ds.envelope = (DSOutcome.dsErr ("Python: could not convert envelope.miny"),
          [Event.dsAttr ("envelope"), Event.dsAttr ("envelope"), Event.envAttr ("minx"),
           Event.envAttr ("miny")])
        ∧ Event.envAttr ("maxx") ∉ (ds.envelope).2
        ∧ Event.envAttr ("maxy") ∉ (ds.envelope).2)
    ∧ (lookupAttr attrs ("minx") = some va → extractDouble va = some a →
        lookupAttr attrs ("miny") = some vb → extractDouble vb = some b →
        lookupAttr attrs ("maxx") = some vc → extractDouble vc = none →
        ds.envelope = (DSOutcome.dsErr ("Python: could not convert envelope.maxx"),
          [Event.dsAttr ("envelope"), Event.dsAttr ("envelope"), Event.envAttr ("minx"),
           Event.envAttr ("miny"), Event.envAttr ("maxx")])
        ∧ Event.envAttr ("maxy") ∉ (ds.envelope).2)
    ∧ (lookupAttr attrs ("minx") = some va → extractDouble va = some a →
        lookupAttr attrs ("miny") = some vb → extractDouble vb = some b →
        lookupAttr attrs ("maxx") = some vc → extractDouble vc = some c →
        lookupAttr attrs ("maxy") = some vd → extractDouble vd = none →
        ds.envelope = (DSOutcome.dsErr ("Python: could not convert envelope.maxy"),
          [Event.dsAttr ("envelope"), Event.dsAttr ("envelope"), Event.envAttr ("minx"),
           Event.envAttr ("miny"), Event.envAttr ("maxx"), Event.envAttr ("maxy")])) := by
  refine ⟨?_, ?_, ?_, ?_⟩
  · intro h1 h1x
    have he := envelope_fields_error ds (PyVal.pyobj attrs) _ _ hl rfl
      (envelopeFields_bad_minx attrs va h1 h1x)
    refine ⟨by rw [he]; rfl, ?_, ?_, ?_⟩ <;> (rw [he]; decide)
  · intro h1 h1x h2 h2x
    have he := envelope_fields_error ds (PyVal.pyobj attrs) _ _ hl rfl
      (envelopeFields_bad_miny attrs va vb a h1 h1x h2 h2x)
    refine ⟨by rw [he]; rfl, ?_, ?_⟩ <;> (rw [he]; decide)
  · intro h1 h1x h2 h2x h3 h3x
    have he := envelope_fields_error ds (PyVal.pyobj attrs) _ _ hl rfl
      (envelopeFields_bad_maxx attrs va vb vc a b h1 h1x h2 h2x h3 h3x)
    refine ⟨by rw [he]; rfl, ?_⟩
    rw [he]; decide
  · intro h1 h1x h2 h2x h3 h3x h4 h4x
    have he := envelope_fields_error ds (PyVal.pyobj attrs) _ _ hl rfl
      (envelopeFields_bad_maxy attrs va vb vc vd a b c h1 h1x h2 h2x h3 h3x h4 h4x)
    rw [he]; rfl

/-- Witness for C4: a non-numeric `minx` is reported as minx, and no
later field is read. -/
theorem c4_envelope_fail_fast_witness :
    dsBadMinx.envelope = (DSOutcome.dsErr ("Python: could not convert envelope.minx"),
      [Event.dsAttr ("envelope"), Event.dsAttr ("envelope"), Event.envAttr ("minx")])
    ∧ Event.envAttr ("miny") ∉ (dsBadMinx.envelope).2
    ∧ Event.envAttr ("maxx") ∉ (dsBadMinx.envelope).2
    ∧ Event.envAttr ("maxy") ∉ (dsBadMinx.envelope).2 :=
  (c4_envelope_fail_fast dsBadMinx
    [("minx", PyVal.pystr ("oops")), ("miny", PyVal.pyfloat 0),
     ("maxx", PyVal.pyfloat 1), ("maxy", PyVal.pyfloat 1)]
    (PyVal.pystr ("oops")) PyVal.pynone PyVal.pynone PyVal.pynone 0 0 0 rfl).1 rfl rfl

/-- C5: with all four envelope sub-attributes numeric, `envelope()`
returns a box whose bounds exactly equal the four source values, with no
normalization. -/
theorem c5_envelope_exact_bounds (ds : python_datasource) (attrs : List (String × PyVal))
    (va vb vc vd : PyVal) (a b c d : Rat)
    (hl : lookupAttr ds.datasource_ ("envelope") = some (PyVal.pyobj attrs))
    (h1 : lookupAttr attrs ("minx") = some va) (h1x : extractDouble va = some a)
    (h2 : lookupAttr attrs ("miny") = some vb) (h2x : extractDouble vb = some b)
    (h3 : lookupAttr attrs ("maxx") = some vc) (h3x : extractDouble vc = some c)
    (h4 : lookupAttr attrs ("maxy") = some vd) (h4x : extractDouble vd = some d) :
    ds.envelope = (DSOutcome.ok ⟨a, b, c, d⟩,
      [Event.dsAttr ("envelope"), Event.dsAttr ("envelope"), Event.envAttr ("minx"),
       Event.envAttr ("miny"), Event.envAttr ("maxx"), Event.envAttr ("maxy")]) := by
  have he := envelope_fields_ok ds (PyVal.pyobj attrs) ⟨a, b, c, d⟩ _ hl rfl
    (envelopeFields_all_good attrs va vb vc vd a b c d h1 h1x h2 h2x h3 h3x h4 h4x)
  rw [he]

/-- Witness for C5: the spec's concrete scenario
{minx: -10.0, miny: -5.0, maxx: 10.0, maxy: 5.0} yields the box
(-10.0, -5.0, 10.0, 5.0). -/
theorem c5_envelope_exact_bounds_witness :
    dsSpecEnv.envelope = (DSOutcome.ok ⟨-10, -5, 10, 5⟩,
      [Event.dsAttr ("envelope"), Event.dsAttr ("envelope"), Event.envAttr ("minx"),
       Event.envAttr ("miny"), Event.envAttr ("maxx"), Event.envAttr ("maxy")]) :=
  c5_envelope_exact_bounds dsSpecEnv
    [("minx", PyVal.pyfloat (-10)), ("miny", PyVal.pyfloat (-5)),
     ("maxx", PyVal.pyfloat 10), ("maxy", PyVal.pyfloat 5)]
    (PyVal.pyfloat (-10)) (PyVal.pyfloat (-5)) (PyVal.pyfloat 10) (PyVal.pyfloat 5)
    (-10) (-5) 10 5 rfl rfl rfl rfl rfl rfl rfl rfl rfl

/-- C6: an entirely absent `envelope` attribute, and likewise a
present-but-null one, both make `envelope()` fail with a DatasourceError
before any of the four sub-attributes is read. -/
theorem c6_envelope_absent_or_null_errs (ds : python_datasource) :
    (lookupAttr ds.datasource_ ("envelope") = none →
        ds.envelope = (DSOutcome.dsErr (extractException (attributeError ("envelope"))),
                       [Event.dsAttr ("envelope")])
        ∧ ∀ k, Event.envAttr k ∉ (ds.envelope).2)
    ∧ (lookupAttr ds.datasource_ ("envelope") = some PyVal.pynone →
        ds.envelope = (DSOutcome.dsErr ("Python: could not access envelope property"),
                       [Event.dsAttr ("envelope")])
        ∧ ∀ k, Event.envAttr k ∉ (ds.envelope).2) := by
  constructor
  · intro h
    have he : ds.envelope
        = (DSOutcome.dsErr (extractException (attributeError ("envelope"))),
           [Event.dsAttr ("envelope")]) := by
      simp [python_datasource.envelope, python_datasource.has_param,
            python_datasource.get_param, pyGetattr, h, translateExc]
    exact ⟨he, fun k => by rw [he]; simp⟩
  · intro h
    have he : ds.envelope
        = (DSOutcome.dsErr ("Python: could not access envelope property"),
           [Event.dsAttr ("envelope")]) := by
      simp [python_datasource.envelope, python_datasource.has_param,
            python_datasource.get_param, pyGetattr, h, PyVal.isNone, translateExc]
    exact ⟨he, fun k => by rw [he]; simp⟩

/-- Witness for C6: concrete absent and present-but-null envelopes. -/
theorem c6_envelope_absent_or_null_errs_witness :
    (dsEmpty.envelope = (DSOutcome.dsErr (extractException (attributeError ("envelope"))),
                         [Event.dsAttr ("envelope")])
      ∧ Event.envAttr ("minx") ∉ (dsEmpty.envelope).2)
    ∧ (dsNullEnv.envelope = (DSOutcome.dsErr ("Python: could not access envelope property"),
                             [Event.dsAttr ("envelope")])
      ∧ Event.envAttr ("minx") ∉ (dsNullEnv.envelope).2) :=
  ⟨⟨((c6_envelope_absent_or_null_errs dsEmpty).1 rfl).1,
    ((c6_envelope_absent_or_null_errs dsEmpty).1 rfl).2 ("minx")⟩,
   ⟨((c6_envelope_absent_or_null_errs dsNullEnv).2 rfl).1,
    ((c6_envelope_absent_or_null_errs dsNullEnv).2 rfl).2 ("minx")⟩⟩

/-- C2 counterexample: on a concrete non-intersecting query the empty
featureset is indeed returned and the `features` callable is never
called, but interpreter work IS performed — `envelope()` runs first and
its attribute reads appear in the trace, so the trace is not empty. -/
theorem c2_short_circuit_still_touches_interpreter :
    (dsSmallWorld.features qFar).1 = DSOutcome.ok (none : featureset_ptr)
    ∧ (dsSmallWorld.features qFar).2
        = [Event.dsAttr ("envelope"), Event.dsAttr ("envelope"), Event.envAttr ("minx"),
           Event.envAttr ("miny"), Event.envAttr ("maxx"), Event.envAttr ("maxy")]
    ∧ (dsSmallWorld.features qFar).2 ≠ [] := by
  refine ⟨rfl, rfl, by decide⟩

/-- C2 (amended): for every query whose bounding box does not intersect
the successfully computed envelope, `features(query)` returns the empty
featureset and makes zero calls into the external `features` callable —
though it first evaluates `envelope()`, whose interpreter attribute
reads make up the whole trace. -/
theorem c2_no_intersect_no_features_call (ds : python_datasource) (q : query)
    (b : box2d) (tr : List Event)
    (he : ds.envelope = (DSOutcome.ok b, tr)) (hni : b.intersects q.get_bbox = false) :
    ds.features q = (DSOutcome.ok (none : featureset_ptr), tr)
    ∧ ∀ q2, Event.callFeatures q2 ∉ (ds.features q).2 := by
  have hf : ds.features q = (DSOutcome.ok (none : featureset_ptr), tr) := by
    unfold python_datasource.features
    rw [he]
    simp [hni]
  refine ⟨hf, fun q2 => ?_⟩
  rw [hf]
  have h2 := envelope_trace_no_calls ds q2
  rw [he] at h2
  exact h2

/-- Witness for the amended C2 at a concrete datasource and far-away
query. -/
theorem c2_no_intersect_witness :
    dsSmallWorld.features qFar
      = (DSOutcome.ok (none : featureset_ptr),
         [Event.dsAttr ("envelope"), Event.dsAttr ("envelope"), Event.envAttr ("minx"),
          Event.envAttr ("miny"), Event.envAttr ("maxx"), Event.envAttr ("maxy")])
    ∧ Event.callFeatures qFar ∉ (dsSmallWorld.features qFar).2 :=
  ⟨(c2_no_intersect_no_features_call dsSmallWorld qFar ⟨0, 0, 1, 1⟩
      [Event.dsAttr ("envelope"), Event.dsAttr ("envelope"), Event.envAttr ("minx"),
       Event.envAttr ("miny"), Event.envAttr ("maxx"), Event.envAttr ("maxy")]
      rfl (by decide)).1,
   (c2_no_intersect_no_features_call dsSmallWorld qFar ⟨0, 0, 1, 1⟩
      [Event.dsAttr ("envelope"), Event.dsAttr ("envelope"), Event.envAttr ("minx"),
       Event.envAttr ("miny"), Event.envAttr ("maxx"), Event.envAttr ("maxy")]
      rfl (by decide)).2 qFar⟩

/-- C7: `features_at_point(point, tolerance)` ignores the tolerance
entirely (the result does not depend on it), calls the external
`features_at_point` callable with the point value only, returns the
empty featureset on a null result, and wraps any iterable result in a
featureset adapter. -/
theorem c7_features_at_point_tolerance_unused (ds : python_datasource) (pt : coord2d)
    (tol tol2 : Rat) (g : coord2d → FeatResult)
    (hl : lookupAttr ds.datasource_ ("features_at_point") = some (PyVal.pycallp g)) :
    ds.features_at_point pt tol = ds.features_at_point pt tol2
    ∧ (g pt = FeatResult.retNone →
        ds.features_at_point pt tol
          = (DSOutcome.ok (none : featureset_ptr),
             [Event.dsAttr ("features_at_point"), Event.callFeaturesAtPoint pt]))
    ∧ (∀ items, g pt = FeatResult.retIter items →
        ds.features_at_point pt tol
          = (DSOutcome.ok (some ⟨items⟩ : featureset_ptr),
             [Event.dsAttr ("features_at_point"), Event.callFeaturesAtPoint pt])) := by
  refine ⟨rfl, ?_, ?_⟩
  · intro h
    simp [python_datasource.features_at_point, python_datasource.get_param, pyGetattr, hl,
          PyVal.isNone, optValue, PyVal.callPoint, h]
  · intro items h
    simp [python_datasource.features_at_point, python_datasource.get_param, pyGetattr, hl,
          PyVal.isNone, optValue, PyVal.callPoint, h]

/-- Witness for C7: a concrete callable returning null, with two
different tolerances. -/
theorem c7_features_at_point_tolerance_unused_witness :
    dsAtPointNone.features_at_point ptExample 5 = dsAtPointNone.features_at_point ptExample 7
    ∧ dsAtPointNone.features_at_point ptExample 5
        = (DSOutcome.ok (none : featureset_ptr),
           [Event.dsAttr ("features_at_point"), Event.callFeaturesAtPoint ptExample]) :=
  ⟨(c7_features_at_point_tolerance_unused dsAtPointNone ptExample 5 7
      (fun _ => FeatResult.retNone) rfl).1,
   (c7_features_at_point_tolerance_unused dsAtPointNone ptExample 5 7
      (fun _ => FeatResult.retNone) rfl).2.1 rfl⟩

/-- C10: `features(query)` always evaluates `envelope()` before the
intersection decision — the envelope trace is an initial segment of the
features trace for every datasource and query — and when `envelope()`
fails with a DatasourceError, `features(query)` fails with that same
DatasourceError for every query, intersecting or not. -/
theorem c10_features_propagates_envelope_error (ds : python_datasource) (q : query)
    (m : String) (tr : List Event) (he : ds.envelope = (DSOutcome.dsErr m, tr)) :
    ds.features q = (DSOutcome.dsErr m, tr)
    ∧ ∀ ds2 q2, ∃ rest, (python_datasource.features ds2 q2).2 = (ds2.envelope).2 ++ rest := by
  constructor
  · unfold python_datasource.features
    rw [he]
  · intro ds2 q2
    rcases he2 : ds2.envelope with ⟨r, envTr⟩
    cases r with
    | ok b =>
      unfold python_datasource.features
      rw [he2]
      by_cases hi : b.intersects q2.get_bbox
      · simp only [hi, if_true]
        rcases hg : ds2.get_param ("features") with ⟨g, tr4⟩
        cases g with
        | error e => exact ⟨tr4, by simp⟩
        | ok o =>
          cases ho : optValue o with
          | error e => exact ⟨tr4, by simp [ho]⟩
          | ok v =>
            cases hc : v.callQuery q2 with
            | raised e => exact ⟨tr4 ++ [Event.callFeatures q2], by simp [ho, hc]⟩
            | retNone => exact ⟨tr4 ++ [Event.callFeatures q2], by simp [ho, hc]⟩
            | retIter items => exact ⟨tr4 ++ [Event.callFeatures q2], by simp [ho, hc]⟩
      · rw [Bool.not_eq_true] at hi
        refine ⟨[], ?_⟩
        simp [hi]
    | dsErr m2 =>
      refine ⟨[], ?_⟩
      unfold python_datasource.features
      rw [he2]
      simp
    | native d2 =>
      refine ⟨[], ?_⟩
      unfold python_datasource.features
      rw [he2]
      simp

/-- Witness for C10: an object with no envelope attribute makes
`features` fail with the very DatasourceError `envelope()` produces,
even for a query that could not intersect anything. -/
theorem c10_features_propagates_envelope_error_witness :
    dsEmpty.features qFar
      = (DSOutcome.dsErr (extractException (attributeError ("envelope"))),
         [Event.dsAttr ("envelope")])
    ∧ ∃ rest, (dsEmpty.features qFar).2 = (dsEmpty.envelope).2 ++ rest :=
  ⟨(c10_features_propagates_envelope_error dsEmpty qFar
      (extractException (attributeError ("envelope"))) [Event.dsAttr ("envelope")] rfl).1,
   (c10_features_propagates_envelope_error dsEmpty qFar
      (extractException (attributeError ("envelope"))) [Event.dsAttr ("envelope")] rfl).2
     dsEmpty qFar⟩
